import Mathlib

/-!
# Verification of the Antigravity Quota Viewer core

Shallow embedding of the quota-monitoring core: group classification and
traffic-light logic (`modelGroups`), snapshot parsing and reset-time
formatting (`apiInterceptor.ts`), the fetch/reconnect cycle of
`QuotaService`, and the sticky-alert hysteresis state machine of
`SidebarProvider._sendUpdate`.

Numbers that are JavaScript `number`s carrying percentages or fractions are
modelled as rationals (`ℚ`); millisecond timestamps and durations as `Int`;
optional fields as `Option`.
-/

/-- Traffic light status, from `modelGroups.ts`. -/
inductive TrafficLight
  | green
  | yellow
  | red
deriving DecidableEq, Repr

/-- Threshold pair, from `modelGroups.ts` (`TrafficThresholds`). -/
structure TrafficThresholds where
  yellow : ℚ
  red : ℚ
deriving DecidableEq, Repr

/--
`getTrafficLight` from `modelGroups.ts`:
if `remainingPct <= t.red` then red, else if `remainingPct <= t.yellow`
then yellow, else green; missing thresholds default to `{yellow 40, red 20}`.
-/
def getTrafficLight (remainingPct : ℚ) (thresholds : Option TrafficThresholds) :
    TrafficLight :=
  let t := thresholds.getD ⟨40, 20⟩
  if remainingPct ≤ t.red then .red
  else if remainingPct ≤ t.yellow then .yellow
  else .green

/-! ## String helpers modelling the JavaScript operations used by
`getGroupForModel` (`label.toLowerCase().trim()` and `String.includes`). -/

/-- JavaScript `toLowerCase` (ASCII case folding, which covers every
pattern and label in `MODEL_GROUPS`). -/
def jsToLower (s : String) : String :=
  ⟨s.data.map Char.toLower⟩

/-- JavaScript `trim`: strip whitespace from both ends. -/
def jsTrim (s : String) : String :=
  ⟨((s.data.dropWhile Char.isWhitespace).reverse.dropWhile
      Char.isWhitespace).reverse⟩

/-- Contiguous-substring test on character lists (JavaScript
`s.includes(sub)`). -/
def charsInclude (sub : List Char) : List Char → Bool
  | [] => sub.isEmpty
  | c :: t => sub.isPrefixOf (c :: t) || charsInclude sub t

/-- JavaScript `s.includes(sub)`. -/
def jsIncludes (s sub : String) : Bool :=
  charsInclude sub.data s.data

/-! ## Model group definitions and classification (`modelGroups.ts`). -/

/-- `ModelGroup` from `modelGroups.ts`. -/
structure ModelGroup where
  id : String
  name : String
  labelPatterns : List String
  icon : String
  color : String
deriving DecidableEq, Repr

/-- `MODEL_GROUPS` from `modelGroups.ts`. -/
def MODEL_GROUPS : List ModelGroup :=
  [ { id := "premium", name := "Premium",
      labelPatterns := ["opus", "sonnet", "gpt-oss", "gpt oss", "120b"],
      icon := "💎", color := "#a78bfa" },
    { id := "pro", name := "Pro",
      labelPatterns := ["gemini 3 pro", "gemini-3-pro", "pro (high", "pro (low"],
      icon := "⚡", color := "#60a5fa" },
    { id := "flash", name := "Flash",
      labelPatterns := ["flash", "gemini 3 flash", "gemini-3-flash"],
      icon := "🔥", color := "#34d399" } ]

/-- Does some pattern of `g` occur (case-insensitively) inside `label`?
This is the per-group test of the nested loop in `getGroupForModel`. -/
def groupMatches (label : String) (g : ModelGroup) : Bool :=
  g.labelPatterns.any fun pat =>
    jsIncludes (jsTrim (jsToLower label)) (jsToLower pat)

/-- `getGroupForModel` from `modelGroups.ts`: scan `MODEL_GROUPS` in order
and return the first group one of whose `labelPatterns` is a
case-insensitive substring of the (lowercased, trimmed) label. -/
def getGroupForModel (label : String) : Option ModelGroup :=
  MODEL_GROUPS.find? (groupMatches label)

/-! ## Per-item quota data (`apiInterceptor.ts` types). -/

/-- `ModelQuotaInfo` from `apiInterceptor.ts`. Timestamps and durations
are milliseconds (`Int`); fractions/percentages are rationals. -/
structure ModelQuotaInfo where
  label : String
  modelId : String
  remainingFraction : Option ℚ
  remainingPercentage : Option ℚ
  isExhausted : Bool
  resetTime : Int
  timeUntilReset : Int
  timeUntilResetFormatted : String
deriving DecidableEq, Repr

/-- `PromptCreditsInfo` from `apiInterceptor.ts`. -/
structure PromptCreditsInfo where
  available : ℚ
  monthly : ℚ
  usedPercentage : ℚ
  remainingPercentage : ℚ
deriving DecidableEq, Repr

/-- `QuotaSnapshot` from `apiInterceptor.ts` (`timestamp` in ms). -/
structure QuotaSnapshot where
  timestamp : Int
  promptCredits : Option PromptCreditsInfo
  models : List ModelQuotaInfo
deriving DecidableEq, Repr

/-- The loop body of `getWorstRemainingInGroup`:
`if (m.remainingPercentage !== undefined && m.remainingPercentage < worst)
worst = m.remainingPercentage`. -/
def worstStep (worst : ℚ) (m : ModelQuotaInfo) : ℚ :=
  match m.remainingPercentage with
  | some p => if p < worst then p else worst
  | none => worst

/-- `getWorstRemainingInGroup` from `modelGroups.ts`: start at 100 and
take any defined `remainingPercentage` that is strictly smaller than the
running worst. -/
def getWorstRemainingInGroup (models : List ModelQuotaInfo) : ℚ :=
  models.foldl worstStep 100

/-! ## Raw payload shape and `parseQuotaResponse` (`apiInterceptor.ts`). -/

/-- The `planInfo` object of the raw payload (only the field the parser
reads). -/
structure PlanInfo where
  monthlyPromptCredits : ℚ
deriving DecidableEq, Repr

/-- The `quotaInfo` object of one raw model entry. -/
structure RawQuotaInfo where
  remainingFraction : Option ℚ
  resetTime : Int
deriving DecidableEq, Repr

/-- One entry of `userStatus.cascadeModelConfigData.clientModelConfigs`. -/
structure RawModel where
  label : Option String
  model : Option String
  quotaInfo : Option RawQuotaInfo
deriving DecidableEq, Repr

/-- The raw status payload: the fields of
`userStatus.planStatus` / `userStatus.cascadeModelConfigData` that
`parseQuotaResponse` reads, with optional chaining flattened to `Option`. -/
structure RawStatus where
  planInfo : Option PlanInfo
  availablePromptCredits : Option ℚ
  clientModelConfigs : List RawModel
deriving DecidableEq, Repr

/-- The `duration` string computed inside `formatResetTime` for a
positive `ms`: minutes are `Math.ceil(ms / 60000)`; under 60 minutes the
rendering is `"{mins}m"`, otherwise `"{hours}h {mins%60}m"`. -/
def resetDuration (ms : Int) : String :=
  let mins : Nat := (ms.toNat + 59999) / 60000
  if mins < 60 then toString mins ++ "m"
  else toString (mins / 60) ++ "h " ++ toString (mins % 60) ++ "m"

/-- `formatResetTime` from `apiInterceptor.ts`. The locale-dependent
absolute date/time renderings (`toLocaleDateString` / `toLocaleTimeString`)
are passed in as the opaque strings `dateStr` and `timeStr`. -/
def formatResetTime (ms : Int) (dateStr timeStr : String) : String :=
  if ms ≤ 0 then "Ready"
  else resetDuration ms ++ " (" ++ dateStr ++ " " ++ timeStr ++ ")"

/-- The model-list part of `parseQuotaResponse`: keep entries whose
`quotaInfo` is present and build a `ModelQuotaInfo` from each.
`now` is the parse-time clock; `localeDate`/`localeTime` model the
locale rendering of a reset timestamp. -/
def parseModels (now : Int) (localeDate localeTime : Int → String)
    (rawModels : List RawModel) : List ModelQuotaInfo :=
  rawModels.filterMap fun m =>
    m.quotaInfo.map fun q =>
      let diff := q.resetTime - now
      { label := m.label.getD "Unknown"
        modelId := m.model.getD "unknown"
        remainingFraction := q.remainingFraction
        remainingPercentage := q.remainingFraction.map (fun f => f * 100)
        isExhausted := decide (q.remainingFraction = some (0 : ℚ))
        resetTime := q.resetTime
        timeUntilReset := diff
        timeUntilResetFormatted :=
          formatResetTime diff (localeDate q.resetTime) (localeTime q.resetTime) }

/-- `parseQuotaResponse` from `apiInterceptor.ts`: credits are present
only when `planInfo` and `availablePromptCredits` are both present and
the monthly allocation is strictly positive. -/
def parseQuotaResponse (now : Int) (localeDate localeTime : Int → String)
    (data : RawStatus) : QuotaSnapshot :=
  let promptCredits : Option PromptCreditsInfo :=
    match data.planInfo, data.availablePromptCredits with
    | some pi, some a =>
        if 0 < pi.monthlyPromptCredits then
          some { available := a
                 monthly := pi.monthlyPromptCredits
                 usedPercentage :=
                   (pi.monthlyPromptCredits - a) / pi.monthlyPromptCredits * 100
                 remainingPercentage := a / pi.monthlyPromptCredits * 100 }
        else none
    | _, _ => none
  { timestamp := now
    promptCredits := promptCredits
    models := parseModels now localeDate localeTime data.clientModelConfigs }

/-! ## Sticky-alert state machine (`SidebarProvider._sendUpdate`). -/

/-- One entry of `SidebarProvider._stickyRedStates`. -/
structure StickyState where
  active : Bool
  dippedBelow4h : Bool
  conditionAMet : Bool
deriving DecidableEq, Repr

/-- The state a group starts in when first observed. -/
def stickyInit : StickyState :=
  { active := false, dippedBelow4h := false, conditionAMet := false }

/-- `5 * 60 * 60 * 1000`. -/
def FIVE_HOURS_MS : Int := 5 * 60 * 60 * 1000

/-- `4 * 60 * 60 * 1000`. -/
def FOUR_HOURS_MS : Int := 4 * 60 * 60 * 1000

/-- One snapshot-processing step of the sticky-red logic in
`SidebarProvider._sendUpdate` (steps 3 and 4 of the source): activation
when `maxResetMs > 5h`, then — while active — dip tracking below 4h,
latching of the recovery condition above 4h, and the full reset when the
latched condition meets `worstPct ≥ 100`. -/
def stickyStep (state : StickyState) (maxResetMs : Int) (worstPct : ℚ) :
    StickyState :=
  let s1 :=
    if maxResetMs > FIVE_HOURS_MS then
      { active := true, dippedBelow4h := false, conditionAMet := false }
    else state
  if s1.active then
    let s2 :=
      if 0 < maxResetMs ∧ maxResetMs < FOUR_HOURS_MS then
        { s1 with dippedBelow4h := true }
      else s1
    let s3 :=
      if s2.dippedBelow4h ∧ maxResetMs > FOUR_HOURS_MS then
        { s2 with conditionAMet := true }
      else s2
    if s3.conditionAMet ∧ worstPct ≥ 100 then
      { active := false, dippedBelow4h := false, conditionAMet := false }
    else s3
  else s1

/-- Process a sequence of `(maxResetMs, worstPct)` snapshots from the
initial sticky state. -/
def stickyRun (inputs : List (Int × ℚ)) : StickyState :=
  inputs.foldl (fun s i => stickyStep s i.1 i.2) stickyInit

/-! ## Fetch cycle of `QuotaService._fetchAndEmit`. -/

/-- `ProcessInfo` from `apiInterceptor.ts`. -/
structure ProcessInfo where
  pid : Nat
  extensionPort : Nat
  connectPort : Nat
  csrfToken : String
deriving DecidableEq, Repr

/-- Outcome of one `fetchQuota` call: a parsed-JSON payload, a
connection-class error (`ECONNREFUSED`/`ECONNRESET`/`ETIMEDOUT`/timeout/
socket hang up), or any other error. -/
inductive FetchResult
  | ok (raw : RawStatus)
  | connErr
  | otherErr
deriving DecidableEq, Repr

/-- The environment of one fetch cycle: what the first `fetchQuota` call
would return, what `findAntigravityProcess` would resolve to if
`_reconnect` runs, and what the retry `fetchQuota` call would return. -/
structure CycleEnv where
  fetch1 : FetchResult
  resolve : Option ProcessInfo
  fetch2 : FetchResult
deriving Repr

/-- The mutable fields of `QuotaService` that `_fetchAndEmit` touches. -/
structure ServiceState where
  processInfo : Option ProcessInfo
  lastSnapshot : Option QuotaSnapshot
  consecutiveFailures : Nat
deriving Repr

/-- What one cycle produced: the new service state, the snapshots fired
on `_onUpdate`, the number of errors fired on `_onError`, and how many
times `_reconnect` (i.e. connection resolution) was attempted. -/
structure CycleOut where
  state : ServiceState
  snapshots : List QuotaSnapshot
  errors : Nat
  resolutionAttempts : Nat
deriving Repr

/-- `QuotaService._fetchAndEmit` as a function of the cycle environment:
with no `processInfo` it only runs `_reconnect`; otherwise it fetches,
and on a connection-class error re-resolves exactly once and, on
success, retries the fetch exactly once. `_reconnect` stores the
resolution result in `processInfo` even when it is `none`. -/
def fetchAndEmit (now : Int) (localeDate localeTime : Int → String)
    (env : CycleEnv) (s : ServiceState) : CycleOut :=
  match s.processInfo with
  | none =>
      { state := { s with processInfo := env.resolve }
        snapshots := []
        errors := 0
        resolutionAttempts := 1 }
  | some _ =>
    match env.fetch1 with
    | .ok raw =>
        let snap := parseQuotaResponse now localeDate localeTime raw
        { state := { processInfo := s.processInfo
                     lastSnapshot := some snap
                     consecutiveFailures := 0 }
          snapshots := [snap]
          errors := 0
          resolutionAttempts := 0 }
    | .connErr =>
        match env.resolve with
        | some pi' =>
            match env.fetch2 with
            | .ok raw =>
                let snap := parseQuotaResponse now localeDate localeTime raw
                { state := { processInfo := some pi'
                             lastSnapshot := some snap
                             consecutiveFailures := 0 }
                  snapshots := [snap]
                  errors := 0
                  resolutionAttempts := 1 }
            | _ =>
                { state := { processInfo := some pi'
                             lastSnapshot := s.lastSnapshot
                             consecutiveFailures := s.consecutiveFailures + 1 }
                  snapshots := []
                  errors := 1
                  resolutionAttempts := 1 }
        | none =>
            { state := { processInfo := none
                         lastSnapshot := s.lastSnapshot
                         consecutiveFailures := s.consecutiveFailures + 1 }
              snapshots := []
              errors := 1
              resolutionAttempts := 1 }
    | .otherErr =>
        { state := { s with consecutiveFailures := s.consecutiveFailures + 1 }
          snapshots := []
          errors := 1
          resolutionAttempts := 0 }

/-! ## Helper lemmas. -/

/-- The worst-percentage fold, from an arbitrary running accumulator:
the result is the accumulator or one of the known percentages, it never
exceeds the accumulator, and it is a lower bound of the known
percentages. -/
theorem worst_foldl_spec (models : List ModelQuotaInfo) :
    ∀ a : ℚ,
      (models.foldl worstStep a = a ∨
        models.foldl worstStep a
          ∈ models.filterMap (fun m => m.remainingPercentage)) ∧
      models.foldl worstStep a ≤ a ∧
      ∀ p ∈ models.filterMap (fun m => m.remainingPercentage),
        models.foldl worstStep a ≤ p := by
  induction models with
  | nil => intro a; simp
  | cons m t ih =>
    intro a
    rcases hm : m.remainingPercentage with _ | p
    · have hstep : worstStep a m = a := by simp [worstStep, hm]
      have hfm : (m :: t).filterMap (fun m => m.remainingPercentage)
          = t.filterMap (fun m => m.remainingPercentage) := by
        simp [List.filterMap_cons, hm]
      rw [List.foldl_cons, hstep, hfm]
      exact ih a
    · have hfm : (m :: t).filterMap (fun m => m.remainingPercentage)
          = p :: t.filterMap (fun m => m.remainingPercentage) := by
        simp [List.filterMap_cons, hm]
      rw [List.foldl_cons, hfm]
      by_cases hlt : p < a
      · have hstep : worstStep a m = p := by simp [worstStep, hm, hlt]
        rw [hstep]
        refine ⟨?_, ?_, ?_⟩
        · rcases (ih p).1 with h | h
          · right; rw [h]; exact List.mem_cons_self _ _
          · right; exact List.mem_cons_of_mem _ h
        · exact le_of_lt (lt_of_le_of_lt (ih p).2.1 hlt)
        · intro q hq
          rcases List.mem_cons.mp hq with h' | hq
          · rw [h']; exact (ih p).2.1
          · exact (ih p).2.2 q hq
      · have hstep : worstStep a m = a := by simp [worstStep, hm, hlt]
        rw [hstep]
        push_neg at hlt
        refine ⟨?_, (ih a).2.1, ?_⟩
        · rcases (ih a).1 with h | h
          · exact Or.inl h
          · exact Or.inr (List.mem_cons_of_mem _ h)
        · intro q hq
          rcases List.mem_cons.mp hq with h' | hq
          · rw [h']; exact le_trans (ih a).2.1 hlt
          · exact (ih a).2.2 q hq

/-- A sticky step lands in the fully cleared state, an active state, or
leaves the state untouched. -/
theorem stickyStep_cases (s : StickyState) (m : Int) (p : ℚ) :
    stickyStep s m p = ⟨false, false, false⟩ ∨
    (stickyStep s m p).active = true ∨
    stickyStep s m p = s := by
  unfold stickyStep
  simp only [apply_ite StickyState.active, apply_ite StickyState.dippedBelow4h,
    apply_ite StickyState.conditionAMet]
  split_ifs <;> simp_all

/-- One sticky step preserves the inactive-clears-memory invariant. -/
theorem stickyStep_preserves_inv (s : StickyState) (m : Int) (p : ℚ)
    (h : s.active = false → s.dippedBelow4h = false ∧ s.conditionAMet = false) :
    (stickyStep s m p).active = false →
      (stickyStep s m p).dippedBelow4h = false ∧
      (stickyStep s m p).conditionAMet = false := by
  intro hact
  rcases stickyStep_cases s m p with hc | hc | hc
  · rw [hc]; exact ⟨rfl, rfl⟩
  · rw [hact] at hc; exact absurd hc Bool.false_ne_true
  · rw [hc] at hact ⊢; exact h hact

/-- The fold of sticky steps from any state satisfying the invariant
keeps satisfying it. -/
theorem stickyFold_inv (inputs : List (Int × ℚ)) :
    ∀ s : StickyState,
      (s.active = false → s.dippedBelow4h = false ∧ s.conditionAMet = false) →
      ((inputs.foldl (fun s i => stickyStep s i.1 i.2) s).active = false →
        (inputs.foldl (fun s i => stickyStep s i.1 i.2) s).dippedBelow4h = false ∧
        (inputs.foldl (fun s i => stickyStep s i.1 i.2) s).conditionAMet = false) := by
  induction inputs with
  | nil => intro s h; exact h
  | cons i t ih =>
    intro s h
    exact ih (stickyStep s i.1 i.2) (stickyStep_preserves_inv s i.1 i.2 h)

/-! ## Claim theorems. -/

/-- **C1** — Sticky-alert round trip: from the initial sticky state,
the snapshot sequence `maxReset = [6h, 3h, 4h30m]` whose third snapshot
has worst-case `pct = 100` ends with `active = false` (whatever the
worst-case percentages of the first two snapshots are), while the
sequence `maxReset = [6h, 3h]` whose second snapshot has `pct = 100`
ends with `active = true` (whatever the first percentage is).
Durations are in milliseconds: 6h = 21600000, 3h = 10800000,
4h30m = 16200000. -/
theorem C1_sticky_round_trip (p1 p2 q1 : ℚ) :
    (stickyRun [(21600000, p1), (10800000, p2), (16200000, 100)]).active
        = false ∧
    (stickyRun [(21600000, q1), (10800000, 100)]).active = true := by
  have h1 : ∀ r : ℚ, stickyStep stickyInit 21600000 r = ⟨true, false, false⟩ := by
    intro r
    unfold stickyStep
    norm_num [FIVE_HOURS_MS, FOUR_HOURS_MS]
  have h2 : ∀ r : ℚ,
      stickyStep ⟨true, false, false⟩ 10800000 r = ⟨true, true, false⟩ := by
    intro r
    unfold stickyStep
    norm_num [FIVE_HOURS_MS, FOUR_HOURS_MS]
  have h3 : stickyStep ⟨true, true, false⟩ 16200000 100 = ⟨false, false, false⟩ := by
    unfold stickyStep
    norm_num [FIVE_HOURS_MS, FOUR_HOURS_MS]
  constructor
  · show (stickyStep (stickyStep (stickyStep stickyInit 21600000 p1)
        10800000 p2) 16200000 100).active = false
    rw [h1, h2, h3]
  · show (stickyStep (stickyStep stickyInit 21600000 q1)
        10800000 100).active = true
    rw [h1, h2]

/-- **C3** — Traffic-light thresholds are at-or-below: for thresholds
`{yellow := y, red := r}` with `r ≤ y`, the light is red iff `p ≤ r`,
yellow iff `r < p ≤ y`, and green iff `p > y`. -/
theorem C3_trafficLight_at_or_below (p y r : ℚ) (hry : r ≤ y) :
    (getTrafficLight p (some ⟨y, r⟩) = .red ↔ p ≤ r) ∧
    (getTrafficLight p (some ⟨y, r⟩) = .yellow ↔ r < p ∧ p ≤ y) ∧
    (getTrafficLight p (some ⟨y, r⟩) = .green ↔ y < p) := by
  unfold getTrafficLight
  simp only [Option.getD_some]
  by_cases h1 : p ≤ r <;> by_cases h2 : p ≤ y <;>
    simp [h1, h2] <;> (try push_neg at h1) <;> (try push_neg at h2) <;>
    linarith

/-- Witness for **C3** at `p = 40`, `y = 40`, `r = 20`. -/
theorem C3_trafficLight_at_or_below_witness :
    (20 : ℚ) ≤ 40 ∧
    (getTrafficLight 40 (some ⟨40, 20⟩) = .yellow ↔ (20 : ℚ) < 40 ∧ (40 : ℚ) ≤ 40) :=
  ⟨by norm_num, (C3_trafficLight_at_or_below 40 40 20 (by norm_num)).2.1⟩

/-- **C4** — Classification is first-match over the declared group order:
`getGroupForModel` returns `some g` exactly when `MODEL_GROUPS` splits as
`l₁ ++ g :: l₂` with `g` matching and nothing in `l₁` matching; it
returns `none` exactly when no group matches; and the label
`"Gemini 3 Pro (High)"` classifies into the `"pro"` group. -/
theorem C4_classification_first_match :
    (∀ (label : String) (g : ModelGroup),
      getGroupForModel label = some g ↔
        groupMatches label g = true ∧
          ∃ l₁ l₂, MODEL_GROUPS = l₁ ++ g :: l₂ ∧
            ∀ g' ∈ l₁, groupMatches label g' = false) ∧
    (∀ label : String,
      getGroupForModel label = none ↔
        ∀ g ∈ MODEL_GROUPS, groupMatches label g = false) ∧
    (getGroupForModel "Gemini 3 Pro (High)").map (fun g => g.id) = some "pro" := by
  refine ⟨fun label g => ?_, fun label => ?_, by decide⟩
  · unfold getGroupForModel
    rw [List.find?_eq_some]
    simp only [Bool.not_eq_true']
  · unfold getGroupForModel
    rw [List.find?_eq_none]
    simp only [Bool.not_eq_true]

/-- **C5** — Group worst-case percentage: when every known member
percentage lies in `[0, 100]`, `getWorstRemainingInGroup` yields 100 if
no member has a known percentage (in particular for the empty list), and
otherwise yields the minimum of the known percentages (it is one of
them and a lower bound of all of them). -/
theorem C5_worst_remaining_min (models : List ModelQuotaInfo)
    (h : ∀ m ∈ models, ∀ p : ℚ, m.remainingPercentage = some p →
      0 ≤ p ∧ p ≤ 100) :
    (models.filterMap (fun m => m.remainingPercentage) = [] →
      getWorstRemainingInGroup models = 100) ∧
    (models.filterMap (fun m => m.remainingPercentage) ≠ [] →
      getWorstRemainingInGroup models
          ∈ models.filterMap (fun m => m.remainingPercentage) ∧
      ∀ p ∈ models.filterMap (fun m => m.remainingPercentage),
        getWorstRemainingInGroup models ≤ p) := by
  have hspec := worst_foldl_spec models 100
  constructor
  · intro hempty
    rcases hspec.1 with h1 | h1
    · exact h1
    · rw [hempty] at h1
      exact absurd h1 (List.not_mem_nil _)
  · intro hne
    have hlb := hspec.2.2
    refine ⟨?_, hlb⟩
    rcases hspec.1 with h1 | h1
    · -- the fold returned 100: every known percentage is then exactly 100
      rcases List.exists_mem_of_ne_nil _ hne with ⟨p0, hp0⟩
      have hle : p0 ≤ 100 := by
        rcases List.mem_filterMap.mp hp0 with ⟨m, hm, hmp⟩
        exact (h m hm p0 hmp).2
      have hge : (100 : ℚ) ≤ p0 := by
        have := hlb p0 hp0
        rw [h1] at this
        exact this
      have : p0 = 100 := le_antisymm hle hge
      rw [getWorstRemainingInGroup, h1, ← this]
      exact hp0
    · exact h1

/-- Witness for **C5** on a two-member group with known percentages
`30` and `50`. -/
theorem C5_worst_remaining_min_witness :
    getWorstRemainingInGroup
        [{ label := "a", modelId := "a", remainingFraction := some (3/10),
           remainingPercentage := some 30, isExhausted := false,
           resetTime := 0, timeUntilReset := 0, timeUntilResetFormatted := "" },
         { label := "b", modelId := "b", remainingFraction := some (1/2),
           remainingPercentage := some 50, isExhausted := false,
           resetTime := 0, timeUntilReset := 0, timeUntilResetFormatted := "" }]
        ∈ [(30 : ℚ), 50] ∧
    ∀ p ∈ [(30 : ℚ), 50],
      getWorstRemainingInGroup
        [{ label := "a", modelId := "a", remainingFraction := some (3/10),
           remainingPercentage := some 30, isExhausted := false,
           resetTime := 0, timeUntilReset := 0, timeUntilResetFormatted := "" },
         { label := "b", modelId := "b", remainingFraction := some (1/2),
           remainingPercentage := some 50, isExhausted := false,
           resetTime := 0, timeUntilReset := 0, timeUntilResetFormatted := "" }]
        ≤ p := by
  have := (C5_worst_remaining_min
    [{ label := "a", modelId := "a", remainingFraction := some (3/10),
       remainingPercentage := some 30, isExhausted := false,
       resetTime := 0, timeUntilReset := 0, timeUntilResetFormatted := "" },
     { label := "b", modelId := "b", remainingFraction := some (1/2),
       remainingPercentage := some 50, isExhausted := false,
       resetTime := 0, timeUntilReset := 0, timeUntilResetFormatted := "" }]
    (by
      intro m hm p hp
      rcases List.mem_cons.mp hm with h' | hm'
      · rw [h'] at hp
        simp only at hp
        rcases Option.some.inj hp with rfl
        norm_num
      · rcases List.mem_cons.mp hm' with h' | hm''
        · rw [h'] at hp
          simp only at hp
          rcases Option.some.inj hp with rfl
          norm_num
        · exact absurd hm'' (List.not_mem_nil m))).2 (by decide)
  simpa using this

/-- **C6** — Credit parsing: the parsed snapshot carries a
`PromptCreditsInfo` iff plan info and an available balance are present
and the monthly allocation is strictly positive; and a payload with
`monthlyPromptCredits = 1000` and `availablePromptCredits = 250` parses
to `{available := 250, monthly := 1000, usedPercentage := 75,
remainingPercentage := 25}`. -/
theorem C6_credit_parsing (now : Int) (localeDate localeTime : Int → String)
    (raw : RawStatus) :
    ((parseQuotaResponse now localeDate localeTime raw).promptCredits.isSome
        = true ↔
      ∃ (pi : PlanInfo) (a : ℚ), raw.planInfo = some pi ∧
        raw.availablePromptCredits = some a ∧ 0 < pi.monthlyPromptCredits) ∧
    (parseQuotaResponse now localeDate localeTime
        { planInfo := some ⟨1000⟩, availablePromptCredits := some 250,
          clientModelConfigs := raw.clientModelConfigs }).promptCredits
      = some ⟨250, 1000, 75, 25⟩ := by
  constructor
  · unfold parseQuotaResponse
    rcases hpi : raw.planInfo with _ | pi <;>
      rcases ha : raw.availablePromptCredits with _ | a <;>
      simp [hpi, ha]
  · unfold parseQuotaResponse
    norm_num

/-- **C7** — Model parsing: an entry survives into the snapshot iff its
`quotaInfo` is present; each retained item's `remainingPercentage` is
its `remainingFraction` times 100 when the fraction is present and
absent otherwise, `isExhausted` holds iff the fraction equals 0, and
every item stems from a raw entry carrying its fraction. -/
theorem C7_model_parsing (now : Int) (localeDate localeTime : Int → String)
    (rawList : List RawModel) :
    ((parseModels now localeDate localeTime rawList).length
        = (rawList.filter (fun m => m.quotaInfo.isSome)).length) ∧
    ∀ it ∈ parseModels now localeDate localeTime rawList,
      it.remainingPercentage = it.remainingFraction.map (fun f => f * 100) ∧
      (it.isExhausted = true ↔ it.remainingFraction = some 0) ∧
      ∃ m ∈ rawList, ∃ q : RawQuotaInfo, m.quotaInfo = some q ∧
        it.remainingFraction = q.remainingFraction := by
  constructor
  · unfold parseModels
    rw [List.length_filterMap_eq_countP, List.countP_eq_length_filter]
    congr 1
    apply List.filter_congr
    intro m _
    simp [Option.isSome_map]
  · intro it hit
    unfold parseModels at hit
    rcases List.mem_filterMap.mp hit with ⟨m, hm, hmap⟩
    rcases Option.map_eq_some'.mp hmap with ⟨q, hq, hbuild⟩
    refine ⟨?_, ?_, m, hm, q, hq, ?_⟩
    · rw [← hbuild]
    · rw [← hbuild]
      simp only [decide_eq_true_eq]
    · rw [← hbuild]

/-- Witness for **C7** on a single raw entry with fraction `1/2` resetting
at the parse instant. -/
theorem C7_model_parsing_witness :
    ({ label := "L", modelId := "M", remainingFraction := some (1/2),
       remainingPercentage := some 50, isExhausted := false,
       resetTime := 0, timeUntilReset := 0,
       timeUntilResetFormatted := "Ready" } : ModelQuotaInfo).remainingPercentage
        = (some (1/2 : ℚ)).map (fun f => f * 100) ∧
    (({ label := "L", modelId := "M", remainingFraction := some (1/2),
        remainingPercentage := some 50, isExhausted := false,
        resetTime := 0, timeUntilReset := 0,
        timeUntilResetFormatted := "Ready" } : ModelQuotaInfo).isExhausted = true
      ↔ (some (1/2 : ℚ)) = some 0) := by
  have := (C7_model_parsing 0 (fun _ => "D") (fun _ => "T")
      [{ label := some "L", model := some "M",
         quotaInfo := some ⟨some (1/2), 0⟩ }]).2
    { label := "L", modelId := "M", remainingFraction := some (1/2),
      remainingPercentage := some 50, isExhausted := false,
      resetTime := 0, timeUntilReset := 0,
      timeUntilResetFormatted := "Ready" }
    (by
      simp only [parseModels, List.filterMap_cons, List.filterMap_nil,
        Option.map_some']
      norm_num [formatResetTime])
  exact ⟨this.1, this.2.1⟩

/-- **C8** counterexample — the claim "whole minutes for every duration
strictly under 60 minutes" fails: the code rounds minutes up *before*
branching, so 3555000 ms (59.25 minutes, strictly under an hour) rounds
to 60 minutes and renders with an hours component, `"1h 0m"`. -/
theorem C8_format_counterexample :
    (0 : Int) < 3555000 ∧ (3555000 : Int) < 60 * 60000 ∧
    resetDuration 3555000 = "1h 0m" ∧
    resetDuration 3555000 ≠ toString ((3555000 + 59999) / 60000 : Nat) ++ "m" ∧
    formatResetTime 3555000 "31/12/2025" "23:59"
      = "1h 0m (31/12/2025 23:59)" := by
  refine ⟨by norm_num, by norm_num, by decide, by decide, ?_⟩
  decide

/-- **C8** (amended) — `formatResetTime` renders a positive duration as
whole minutes exactly when the *rounded-up* minute count is below 60,
i.e. for durations of at most 59 minutes (3540000 ms); durations above
59 minutes (even when still under an hour) render as hours+minutes. -/
theorem C8_format_minutes_boundary (d : Int) (dateStr timeStr : String)
    (hd : 0 < d) :
    (d ≤ 3540000 →
      formatResetTime d dateStr timeStr
        = toString ((d.toNat + 59999) / 60000) ++ "m ("
            ++ dateStr ++ " " ++ timeStr ++ ")") ∧
    (3540000 < d →
      formatResetTime d dateStr timeStr
        = toString (((d.toNat + 59999) / 60000) / 60) ++ "h "
            ++ toString (((d.toNat + 59999) / 60000) % 60) ++ "m ("
            ++ dateStr ++ " " ++ timeStr ++ ")") := by
  have hnotle : ¬ d ≤ 0 := not_le.mpr hd
  constructor
  · intro hle
    have hmins : (d.toNat + 59999) / 60000 < 60 := by omega
    unfold formatResetTime resetDuration
    rw [if_neg hnotle, if_pos hmins]
    simp [String.append_assoc]
  · intro hgt
    have hmins : ¬ (d.toNat + 59999) / 60000 < 60 := by omega
    unfold formatResetTime resetDuration
    rw [if_neg hnotle, if_neg hmins]
    simp [String.append_assoc]

/-- Witness for **C8** (amended) at 2 minutes and at 2 hours. -/
theorem C8_format_minutes_boundary_witness :
    formatResetTime 120000 "D" "T" = "2m (D T)" ∧
    formatResetTime 7200000 "D" "T" = "2h 0m (D T)" := by
  constructor
  · have := (C8_format_minutes_boundary 120000 "D" "T" (by norm_num)).1
      (by norm_num)
    simpa using this
  · have := (C8_format_minutes_boundary 7200000 "D" "T" (by norm_num)).2
      (by norm_num)
    simpa using this

/-- **C9** — Sticky-alert idempotence: from any inactive state, a
snapshot whose `maxReset` is at most 5 hours leaves the whole state
unchanged (for every pct), and leaving the inactive state can only
happen on `maxReset > 5h`. -/
theorem C9_sticky_idempotent (s : StickyState) (m : Int) (p : ℚ)
    (hact : s.active = false) :
    (m ≤ FIVE_HOURS_MS → stickyStep s m p = s) ∧
    ((stickyStep s m p).active = true → FIVE_HOURS_MS < m) := by
  constructor
  · intro hm
    unfold stickyStep
    rw [if_neg (not_lt.mpr hm), if_neg (by simp [hact])]
  · intro hstep
    by_contra hm
    push_neg at hm
    have hid : stickyStep s m p = s := by
      unfold stickyStep
      rw [if_neg (not_lt.mpr hm), if_neg (by simp [hact])]
    rw [hid, hact] at hstep
    exact Bool.false_ne_true hstep

/-- Witness for **C9** at the initial state with a 1-second countdown. -/
theorem C9_sticky_idempotent_witness :
    stickyStep stickyInit 1000 50 = stickyInit :=
  (C9_sticky_idempotent stickyInit 1000 50 rfl).1
    (by norm_num [FIVE_HOURS_MS])

/-- **C10** — Sticky-alert invariant: in the initial state and after any
sequence of snapshot-processing steps (for all `maxReset` and `pct`
inputs), `active = false` implies both hysteresis memory flags
`dippedBelow4h` and `conditionAMet` are clear. -/
theorem C10_sticky_invariant :
    (stickyInit.active = false →
      stickyInit.dippedBelow4h = false ∧ stickyInit.conditionAMet = false) ∧
    ∀ inputs : List (Int × ℚ),
      (stickyRun inputs).active = false →
        (stickyRun inputs).dippedBelow4h = false ∧
        (stickyRun inputs).conditionAMet = false := by
  refine ⟨fun _ => ⟨rfl, rfl⟩, fun inputs => ?_⟩
  exact stickyFold_inv inputs stickyInit (fun _ => ⟨rfl, rfl⟩)

/-- **C2** — Fetch cycle with a resolved connection: a connection-class
failure followed by a successful re-resolution and a successful retry
emits exactly one snapshot and no error; a connection-class failure with
failed re-resolution emits no snapshot and exactly one error, clears the
stored connection, and the next cycle (whatever its environment) starts
with a resolution attempt. -/
theorem C2_fetch_cycle (now : Int) (localeDate localeTime : Int → String)
    (env : CycleEnv) (s : ServiceState) (pInfo : ProcessInfo)
    (hs : s.processInfo = some pInfo) :
    (∀ (pInfo' : ProcessInfo) (raw : RawStatus),
      env.fetch1 = .connErr → env.resolve = some pInfo' →
      env.fetch2 = .ok raw →
        (fetchAndEmit now localeDate localeTime env s).snapshots.length = 1 ∧
        (fetchAndEmit now localeDate localeTime env s).errors = 0) ∧
    (env.fetch1 = .connErr → env.resolve = none →
      (fetchAndEmit now localeDate localeTime env s).snapshots = [] ∧
      (fetchAndEmit now localeDate localeTime env s).errors = 1 ∧
      (fetchAndEmit now localeDate localeTime env s).state.processInfo = none ∧
      ∀ (now' : Int) (ld' lt' : Int → String) (env' : CycleEnv),
        (fetchAndEmit now' ld' lt' env'
            (fetchAndEmit now localeDate localeTime env s).state).resolutionAttempts
          = 1) := by
  constructor
  · intro pInfo' raw h1 h2 h3
    simp [fetchAndEmit, hs, h1, h2, h3]
  · intro h1 h2
    refine ⟨?_, ?_, ?_, ?_⟩ <;>
      simp [fetchAndEmit, hs, h1, h2]

/-- Witness for **C2**: a connection error with failed re-resolution on a
concrete state. -/
theorem C2_fetch_cycle_witness :
    (fetchAndEmit 0 (fun _ => "D") (fun _ => "T")
        ⟨.connErr, none, .connErr⟩
        ⟨some ⟨7, 8, 9, "tok"⟩, none, 0⟩).snapshots = [] ∧
    (fetchAndEmit 0 (fun _ => "D") (fun _ => "T")
        ⟨.connErr, none, .connErr⟩
        ⟨some ⟨7, 8, 9, "tok"⟩, none, 0⟩).errors = 1 ∧
    (fetchAndEmit 0 (fun _ => "D") (fun _ => "T")
        ⟨.connErr, none, .connErr⟩
        ⟨some ⟨7, 8, 9, "tok"⟩, none, 0⟩).state.processInfo = none := by
  have := (C2_fetch_cycle 0 (fun _ => "D") (fun _ => "T")
      ⟨.connErr, none, .connErr⟩
      ⟨some ⟨7, 8, 9, "tok"⟩, none, 0⟩ ⟨7, 8, 9, "tok"⟩ rfl).2 rfl rfl
  exact ⟨this.1, this.2.1, this.2.2.1⟩
